import Mathlib

/-!
Verification of the JXD sync and aggregation engine against its specification.

The definitions below are shallow embeddings of the Python source files:
  jxd/sync.py, jxd/api.py, jxd/sportmonks_client.py, jxd/aggregate.py,
  ValueBets/team_value_bets.py, ValueBets/player_one_shot_value_bets.py.
Python floats are modelled as rationals, Python ints as integers or naturals,
optional/None-able values as Option, and Python truthiness is modelled
explicitly where the source relies on it (0, empty string, empty dict and
None are falsy).
-/

/-- Python truthiness of an optional integer: None and 0 are falsy. -/
def pyTruthyZ : Option Int → Bool
  | some v => v != 0
  | none => false

/-- Python x or y on optional integers (0 and None are falsy), as used by
the dict-shaped score fallback in sync.py line 161. -/
def pyOrZ (a b : Option Int) : Option Int :=
  if pyTruthyZ a then a else b

/-- Python x or y on an optional integer with a non-optional default,
as used for current or page in api.py line 137. -/
def pyOrZD (a : Option Int) (b : Int) : Int :=
  match a with
  | some v => if v != 0 then v else b
  | none => b

/-- Python x or y on optional strings: None and the empty string are falsy. -/
def pyOrS (a b : Option String) : Option String :=
  match a with
  | some v => if v != "" then some v else b
  | none => b

/-- Python int truncation toward zero, used for str(int(v)) in the seq
fields of the ValueBets rate computations. -/
def pyIntTrunc (q : Rat) : Int :=
  if 0 ≤ q then ⌊q⌋ else ⌈q⌉

/- ----------------------------------------------------------------------
Entity mapper: fixture score extraction, sync.py lines 147-163.
The raw fixture field raw.get("scores") or raw.get("score") or empty-dict
is modelled by ScoresRaw with the falsy chain already resolved: listScores
for the list shape, dictScores for the dict shape, noScores when both keys
are missing or falsy.
---------------------------------------------------------------------- -/

/-- The object stored under the score key of one snapshot entry
(sync.py lines 153-155). -/
structure ScoreObj where
  participant : Option String
  goals : Option Int
deriving DecidableEq, Repr

/-- One entry of the scores array. The description tag (for example CURRENT
or 1ST_HALF in provider payloads) is carried by the raw entry; the mapper
never reads it. -/
structure ScoreEntry where
  description : Option String
  score : Option ScoreObj
deriving DecidableEq, Repr

/-- The resolved shape of the raw scores field of a fixture record. -/
inductive ScoresRaw where
  | listScores (entries : List ScoreEntry)
  | dictScores (localteam_score home visitorteam_score away : Option Int)
  | noScores
deriving DecidableEq, Repr

/-- The loop of sync.py lines 152-159: walk the score snapshots in order,
assigning home and away goals whenever the accumulator is still None. -/
def scoresLoop : List ScoreEntry → Option Int → Option Int → Option Int × Option Int
  | [], home_score, away_score => (home_score, away_score)
  | s :: rest, home_score, away_score =>
    let score_obj := s.score.getD ⟨none, none⟩
    let participant := score_obj.participant
    let goals := score_obj.goals
    let home_score := if participant == some "home" && home_score.isNone then goals else home_score
    let away_score := if participant == some "away" && away_score.isNone then goals else away_score
    scoresLoop rest home_score away_score

/-- Score derivation of the fixture mapper, sync.py lines 148-162: returns
the home_score and away_score fields of the mapped fixture. -/
def fixture_mapper_scores : ScoresRaw → Option Int × Option Int
  | .listScores entries => scoresLoop entries none none
  | .dictScores lts h vts a => (pyOrZ lts h, pyOrZ vts a)
  | .noScores => (none, none)

/-- First non-null goals value among entries tagged with the given
participant, in array order. Used to characterise the list branch of
fixture_mapper_scores. -/
def firstParticipantGoals (who : String) (entries : List ScoreEntry) : Option Int :=
  (entries.filterMap fun s =>
    let score_obj := s.score.getD ⟨none, none⟩
    if score_obj.participant == some who then score_obj.goals else none).head?

/- ----------------------------------------------------------------------
Rolling-window hit rates: ValueBets/team_value_bets.py and
ValueBets/player_one_shot_value_bets.py.
---------------------------------------------------------------------- -/

/-- The result dict produced by the two rate_over functions: pct, total,
avg and the seq of int-truncated values (the source renders seq as a
comma-joined string; the underlying integer sequence is kept here). -/
structure RateResult where
  pct : Rat
  total : Nat
  avg : Rat
  seq : List Int
deriving DecidableEq, Repr

namespace TeamValueBets

/-- truncate_seq of team_value_bets.py lines 224-226: int-truncate the
non-null values and keep the first limit of them. -/
def truncate_seq (seq : List Rat) (limit : Nat) : List Int :=
  ((seq.map pyIntTrunc).take limit)

/-- rate_over of team_value_bets.py lines 229-236: None when fewer than
min_samples non-null values, otherwise the hit rate of values at or above
the line. Divisions by len(clean) are guarded by the min_samples gate in
every call of the source (min_samples is positive there). -/
def rate_over (values : List (Option Rat)) (line : Rat) (min_samples : Nat) : Option RateResult :=
  let clean := values.filterMap id
  if clean.length < min_samples then none
  else
    let over := clean.countP fun v => line ≤ v
    let pct : Rat := over / clean.length
    let avg : Rat := if clean.isEmpty then 0 else clean.sum / clean.length
    some { pct := pct, total := clean.length, avg := avg, seq := truncate_seq clean clean.length }

/-- select_best_rate of team_value_bets.py lines 239-250, with the
per-entity fixture values already extracted (the source looks them up by
team id and stat key) and the MIN_SAMPLES environment constant passed as
an argument. Returns the chosen sample size together with its result. -/
def select_best_rate (vals : List (Option Rat)) (sample_sizes : List Nat) (line : Rat) (min_samples : Nat) : Option (Nat × RateResult) :=
  sample_sizes.foldl
    (fun best sample_size =>
      match rate_over (vals.take sample_size) line min_samples with
      | none => best
      | some res =>
        match best with
        | none => some (sample_size, res)
        | some b => if res.pct > b.2.pct then some (sample_size, res) else best)
    none

end TeamValueBets

namespace PlayerOneShot

/-- rate_over of player_one_shot_value_bets.py lines 130-143. The required
sample count is clamped to the number of clean values before the gate is
tested, so the gate can never fire. -/
def rate_over (vals : List (Option Rat)) (line : Rat) (min_samples : Nat) : Option RateResult :=
  let clean := vals.filterMap id
  let required := if min_samples > 0 then min_samples else 1
  let required := min required clean.length
  if clean.length < required then none
  else
    let hits := clean.countP fun v => line ≤ v
    let pct : Rat := if clean.isEmpty then 0 else hits / clean.length
    let avg : Rat := if clean.isEmpty then 0 else clean.sum / clean.length
    some { pct := pct, total := clean.length, avg := avg, seq := clean.map pyIntTrunc }

/-- best_rate of player_one_shot_value_bets.py lines 146-156, with the
per-entity fixture values already extracted and the SAMPLE_SIZES
environment constant passed as an argument. -/
def best_rate (vals : List (Option Rat)) (sample_sizes : List Nat) (line : Rat) (min_samples : Nat) : Option (Nat × RateResult) :=
  sample_sizes.foldl
    (fun best sample =>
      match rate_over (vals.take sample) line min_samples with
      | none => best
      | some res =>
        match best with
        | none => some (sample, res)
        | some b => if res.pct > b.2.pct then some (sample, res) else best)
    none

end PlayerOneShot

/- ----------------------------------------------------------------------
Pagination walkers: api.py lines 74-142 and sportmonks_client.py
lines 63-121. Page payloads are modelled by Page, the upstream API by a
function from page number to payload, and the unbounded while loop by a
fuel parameter (the source loop can genuinely run forever if the provider
keeps signalling more pages).
---------------------------------------------------------------------- -/

/-- The next_page pagination field: an integer page number or a string
(possibly a full URL). -/
inductive NextPage where
  | int (n : Int)
  | str (s : String)
deriving DecidableEq, Repr

/-- Pagination metadata of a page payload. page_field models the page key
read only by sportmonks_client.py line 99. A missing or empty pagination
dict is modelled by Option.none at the use site. -/
structure Pagination where
  has_more : Option Bool := none
  next_page : Option NextPage := none
  current_page : Option Int := none
  total_pages : Option Int := none
  page_field : Option Int := none
deriving DecidableEq, Repr

/-- One page payload: the data array and the pagination metadata taken
from pagination or meta.pagination (none when both are missing or empty).
The single-resource dict shape of the data key is not exercised by
collection endpoints and is not modelled. -/
structure Page (α : Type) where
  data : List α
  pagination : Option Pagination := none

/-- Split a character list on a separator, keeping empty fields, as the
Python str.split with an argument does. -/
def splitOnChar (c : Char) : List Char → List (List Char)
  | [] => [[]]
  | x :: xs =>
    match splitOnChar c xs with
    | [] => [[]]
    | y :: ys => if x == c then [] :: y :: ys else (x :: y) :: ys

/-- Split a character list at the first occurrence of the separator, as
the single-split form of str.split used by parse_qsl for each
name-value pair. -/
def splitFirstChar (c : Char) : List Char → Option (List Char × List Char)
  | [] => none
  | x :: xs =>
    if x == c then some ([], xs)
    else (splitFirstChar c xs).map fun p => (x :: p.1, p.2)

/-- Nonempty all-digit check, modelling the Python str.isdigit test of
api.py lines 130 and 133. -/
def isDigits (l : List Char) : Bool :=
  !l.isEmpty && l.all Char.isDigit

/-- Digits to a natural number, for character lists that passed
isDigits. -/
def digitsToNat (l : List Char) : Nat :=
  l.foldl (fun n c => n * 10 + (c.toNat - 48)) 0

/-- The query string of a URL: everything after the first question mark
and before a fragment marker, as urlparse extracts it. -/
def urlQuery (url : List Char) : List Char :=
  match splitOnChar '?' url with
  | [] => []
  | [_] => []
  | _ :: rest => (splitOnChar '#' (List.intercalate ['?'] rest)).headD []

/-- First value of the page parameter of a query string, as
parse_qs(query).get("page") followed by taking element zero
(api.py line 129); parse_qs drops blank values. -/
def queryPageParam (url : List Char) : Option (List Char) :=
  ((splitOnChar '&' (urlQuery url)).filterMap fun kv =>
    match splitFirstChar '=' kv with
    | some (k, v) => if k == ("page".toList) && !v.isEmpty then some v else none
    | none => none).head?

/-- Strip leading and trailing whitespace, as Python int() does before
converting a string. -/
def trimChars (l : List Char) : List Char :=
  ((l.dropWhile Char.isWhitespace).reverse.dropWhile Char.isWhitespace).reverse

/-- Python int() applied to a string: optional sign and decimal digits
after trimming whitespace, None when the conversion raises
(sportmonks_client.py lines 103-106). -/
def pyIntOfString (s : String) : Option Int :=
  match trimChars s.toList with
  | '-' :: ds => if isDigits ds then some (-(digitsToNat ds : Int)) else none
  | '+' :: ds => if isDigits ds then some (digitsToNat ds : Int) else none
  | ds => if isDigits ds then some (digitsToNat ds : Int) else none

/-- Next-page decision of api.py lines 112-142: try a truthy next_page
token (integer directly, a URL via its page query parameter, then a bare
digit string), then has_more compared with True identically, then
current_page below total_pages with both truthy; None means the walker
stops. An unparseable truthy string falls through to the later signals,
exactly as the source control flow does. -/
def api_next_page (pg : Option Pagination) (page : Int) : Option Int :=
  let p := pg.getD {}
  let fallback : Option Int :=
    if p.has_more == some true then
      some (pyOrZD p.current_page page + 1)
    else if pyTruthyZ p.current_page && pyTruthyZ p.total_pages
        && (p.current_page.getD 0 < p.total_pages.getD 0) then
      some (p.current_page.getD 0 + 1)
    else
      none
  match p.next_page with
  | some (.int n) => if n != 0 then some n else fallback
  | some (.str s) =>
    if s != "" then
      match queryPageParam s.toList with
      | some v => if isDigits v then some (digitsToNat v : Int) else
          if isDigits s.toList then some (digitsToNat s.toList : Int) else fallback
      | none => if isDigits s.toList then some (digitsToNat s.toList : Int) else fallback
    else fallback
  | none => fallback

/-- fetch_collection of api.py lines 74-142 as a function of the upstream
server: yield the data array of each page, then follow api_next_page until
it yields None. The fuel bounds the number of page requests. -/
def api_fetch_collection (server : Int → Page α) : Nat → Int → List α
  | 0, _ => []
  | fuel + 1, page =>
    let payload := server page
    payload.data ++
      match api_next_page payload.pagination page with
      | some next => api_fetch_collection server fuel next
      | none => []

/-- Next-page decision of sportmonks_client.py lines 98-117, taken only
when the pagination dict is present and truthy: an integer-convertible
next_page strictly above the current page wins, then current_page below a
truthy total_pages, then a truthy has_more; None means the walker stops.
URL-shaped next_page values fail the int conversion and fall through. -/
def sm_next_page (p : Pagination) (page : Int) : Option Int :=
  let current_page := pyOrZD p.current_page (pyOrZD p.page_field page)
  let next_page_int : Option Int :=
    match p.next_page with
    | some (.int n) => some n
    | some (.str s) => pyIntOfString s
    | none => none
  if pyTruthyZ next_page_int && (next_page_int.getD 0 > current_page) then
    next_page_int
  else if pyTruthyZ p.total_pages && current_page < p.total_pages.getD 0 then
    some (current_page + 1)
  else if p.has_more == some true then
    some (current_page + 1)
  else
    none

/-- fetch_collection of sportmonks_client.py lines 63-121: stop on a page
with zero rows, otherwise yield the rows and follow sm_next_page when
pagination is present; without pagination, stop when the page was shorter
than per_page, else advance to the next page number. -/
def sm_fetch_collection (server : Int → Page α) (per_page : Nat) : Nat → Int → List α
  | 0, _ => []
  | fuel + 1, page =>
    let payload := server page
    let rows := payload.data
    if rows.isEmpty then []
    else
      rows ++
        match payload.pagination with
        | some p =>
          match sm_next_page p page with
          | some next => sm_fetch_collection server per_page fuel next
          | none => []
        | none =>
          if rows.length < per_page then []
          else sm_fetch_collection server per_page fuel (page + 1)

/- ----------------------------------------------------------------------
Retry and backoff: sportmonks_client.py lines 31-61 and the non-retrying
request of api.py lines 58-72. An attempt either raises a network
exception or produces an HTTP response; the loop is bounded by
max_retries, with the remaining-attempt count as the recursion measure.
---------------------------------------------------------------------- -/

/-- Outcome of one outbound HTTP attempt. -/
inductive Attempt where
  | netError
  | resp (status : Nat) (body : String) (validJson : Bool)
deriving DecidableEq, Repr

/-- The single error class SportMonksError of the source, tagged by the
raise site: exhausted retries after network failures, a failing HTTP
status carried with its body, or an unparseable JSON payload. -/
inductive SMError where
  | afterRetries
  | invalidJson
  | failedStatus (status : Nat) (body : String)
deriving DecidableEq, Repr

/-- True for the statuses the client retries: HTTP 429 and the 5xx range
(sportmonks_client.py line 54). -/
def retryableStatus (status : Nat) : Bool :=
  status == 429 || (500 ≤ status && status < 600)

/-- The while loop of sportmonks_client.py lines 37-61. attempts gives
the outcome of the k-th try, attempt is the counter already incremented
at the top of the body, backoff the current sleep seconds. Returns the
result together with the list of backoff sleeps performed, in order.
The network-error branch doubles backoff without a cap (line 45); the
retryable-status branch caps the doubled backoff at 16 (line 58). -/
def request_go (attempts : Nat → Attempt) (max_retries : Nat) (attempt : Nat) (backoff : Rat) : Except SMError Unit × List Rat :=
  let a := attempt + 1
  match attempts (a - 1) with
  | .netError =>
    if max_retries ≤ a then (.error .afterRetries, [])
    else
      let r := request_go attempts max_retries a (backoff * 2)
      (r.1, backoff :: r.2)
  | .resp status body validJson =>
    if status == 200 then
      if validJson then (.ok (), []) else (.error .invalidJson, [])
    else if retryableStatus status then
      if max_retries ≤ a then (.error (.failedStatus status body), [])
      else
        let r := request_go attempts max_retries a (min (backoff * 2) 16)
        (r.1, backoff :: r.2)
    else (.error (.failedStatus status body), [])
termination_by max_retries - attempt
decreasing_by
  all_goals simp_all; omega

/-- request of sportmonks_client.py lines 31-61: the loop entered with
attempt zero and backoff one second. -/
def sm_request (attempts : Nat → Attempt) (max_retries : Nat) : Except SMError Unit × List Rat :=
  request_go attempts max_retries 0 1

/-- The request of api.py lines 58-72: a single attempt, no retry loop.
response.ok is status below 400; any other status raises immediately with
status and body. A network error would propagate as the underlying
exception, outside SMError, and is not modelled here. -/
def api_request (status : Nat) (body : String) (validJson : Bool) : Except SMError Unit :=
  if status < 400 then
    if validJson then .ok () else .error .invalidJson
  else .error (.failedStatus status body)

/- ----------------------------------------------------------------------
Rate limiter: api.py lines 14-29 and its use in every request, line 60.
Wall-clock time is idealised: time.sleep(s) suspends for exactly s
seconds and time.time() is monotone, so the post-sleep timestamp is the
pre-sleep reading plus the sleep amount.
---------------------------------------------------------------------- -/

/-- RateLimiter state: the minimum interval 3600 divided by
requests_per_hour, and the timestamp of the previous call (zero at
construction). -/
structure RateLimiter where
  min_interval : Rat
  last_ts : Rat
deriving DecidableEq, Repr

/-- RateLimiter constructor, api.py lines 19-21. -/
def RateLimiter.mk_hourly (requests_per_hour : Rat) : RateLimiter :=
  { min_interval := 3600 / requests_per_hour, last_ts := 0 }

/-- RateLimiter.wait, api.py lines 23-29, at the current clock reading:
returns the time at which the call proceeds and the updated state. -/
def RateLimiter.wait (rl : RateLimiter) (now : Rat) : Rat × RateLimiter :=
  let delta := now - rl.last_ts
  let sleep_for := rl.min_interval - delta
  let t := if sleep_for > 0 then now + sleep_for else now
  (t, { rl with last_ts := t })

/-- The throttle step of SportMonksClient api request, api.py line 60:
one shared limiter is consulted before every call, whatever the endpoint
path is; the path never reaches the limiter. -/
def client_request_throttle (rl : RateLimiter) (path : String) (now : Rat) : Rat × RateLimiter :=
  let _ := path
  rl.wait now

/- ----------------------------------------------------------------------
Odds upsert and dedup: SyncService._store_odds_rows, sync.py lines
866-944. The raw odds payload dict is modelled by RawOdds, the stored
odds_outcomes row by OddsOutcomeRow, and the session by the list of
stored rows (one_or_none is the first match). The bookmaker and market
side-table backfills of lines 875-891 touch other tables and are outside
the OddsOutcome store modelled here.
---------------------------------------------------------------------- -/

/-- One raw odds payload row. The value field carries the decimal odds
already parsed (the source applies float, with None and the empty string
mapped to None); total carries the str() rendering of the total key. -/
structure RawOdds where
  id : Option Int := none
  bookmaker_id : Option Int := none
  market_id : Option Int := none
  market_description : Option String := none
  market_name : Option String := none
  label : Option String := none
  name : Option String := none
  participant : Option String := none
  participant_type : Option String := none
  participant_id : Option Int := none
  handicap : Option String := none
  total : Option String := none
  value : Option Rat := none
  american : Option String := none
  fractional : Option String := none
  probability : Option String := none
  stopped : Option Bool := none
  winning : Option Bool := none
deriving DecidableEq, Repr

/-- Modelled from the spec: dict_hash is imported from jxd/utils.py by
sync.py line 30 but the function itself is absent from the sources under
src; the spec describes it as a stable content hash of the raw payload
used to detect no-op re-ingestion, so it is modelled as an injective
fingerprint, the payload itself. -/
def dict_hash (row : RawOdds) : RawOdds := row

/-- A stored odds_outcomes row, the fields written by sync.py lines
918-939. -/
structure OddsOutcomeRow where
  provider_outcome_id : Option Int
  fixture_id : Int
  bookmaker_id : Option Int
  market_id : Option Int
  market_description : Option String
  label : Option String
  name : Option String
  participant : Option String
  participant_type : Option String
  participant_id : Option Int
  handicap : Option String
  total : Option String
  decimal_odds : Option Rat
  american_odds : Option String
  fractional_odds : Option String
  probability : Option String
  stopped : Option Bool
  is_winning : Option Bool
  raw : RawOdds
  raw_hash : RawOdds
deriving DecidableEq, Repr

/-- The data dict of sync.py lines 918-939. Note the participant field
written here prefers the participant key over the name key, while the
natural-key lookup of line 908 prefers name over participant. -/
def odds_data (fixture_id : Int) (row : RawOdds) : OddsOutcomeRow :=
  { provider_outcome_id := row.id
    fixture_id := fixture_id
    bookmaker_id := row.bookmaker_id
    market_id := row.market_id
    market_description := pyOrS row.market_description row.market_name
    label := row.label
    name := row.name
    participant := pyOrS row.participant (pyOrS row.name row.total)
    participant_type := row.participant_type
    participant_id := row.participant_id
    handicap := row.handicap
    total := row.total
    decimal_odds := row.value
    american_odds := row.american
    fractional_odds := row.fractional
    probability := row.probability
    stopped := row.stopped
    is_winning := row.winning
    raw := row
    raw_hash := dict_hash row }

/-- The natural-key filter of sync.py lines 901-913: fixture, bookmaker,
market, label, participant (name preferred over participant, then total),
handicap and total must all match. -/
def naturalKeyMatch (fixture_id : Int) (row : RawOdds) (o : OddsOutcomeRow) : Bool :=
  o.fixture_id == fixture_id
    && o.bookmaker_id == row.bookmaker_id
    && o.market_id == row.market_id
    && o.label == row.label
    && o.participant == pyOrS row.name (pyOrS row.participant row.total)
    && o.handicap == row.handicap
    && o.total == row.total

/-- Replace the first element satisfying the test, leaving the rest of
the store untouched. -/
def replaceFirst (p : α → Bool) (new : α) : List α → List α
  | [] => []
  | x :: xs => if p x then new :: xs else x :: replaceFirst p new xs

/-- One iteration of the row loop of _store_odds_rows, sync.py lines
867-944: look the row up by a truthy provider outcome id, then by the
natural key; on a natural-key hit with an identical raw hash, skip the
write; otherwise update the found row or insert a new one. -/
def store_odds_row (fixture_id : Int) (store : List OddsOutcomeRow) (row : RawOdds) : List OddsOutcomeRow :=
  let raw_hash := dict_hash row
  let viaProvider :=
    if pyTruthyZ row.id then store.find? (fun o => o.provider_outcome_id == row.id) else none
  match viaProvider with
  | some _ =>
    replaceFirst (fun o => o.provider_outcome_id == row.id) (odds_data fixture_id row) store
  | none =>
    match store.find? (naturalKeyMatch fixture_id row) with
    | some o =>
      if o.raw_hash == raw_hash then store
      else replaceFirst (naturalKeyMatch fixture_id row) (odds_data fixture_id row) store
    | none => store ++ [odds_data fixture_id row]

/-- _store_odds_rows, sync.py lines 866-944: fold the row loop over the
payload rows. Non-dict rows are skipped by the source guard and are not
representable here. -/
def store_odds_rows (fixture_id : Int) (store : List OddsOutcomeRow) (rows : List RawOdds) : List OddsOutcomeRow :=
  rows.foldl (store_odds_row fixture_id) store

/- ----------------------------------------------------------------------
History-window chunking: SyncService.sync_history_window, sync.py lines
441-485. Dates are modelled as day ordinals; the cursor loop of lines
468-483 becomes a recursion on the remaining span. The per-chunk fetch
count and the optional overall limit do not affect which chunks are
formed when no limit is supplied, and are omitted.
---------------------------------------------------------------------- -/

/-- The cursor loop of sync.py lines 468-483 with max_span set to 95:
emit chunks of at most 95 days, advancing the cursor to the day after
each chunk end, while the cursor has not passed the window end. -/
def history_chunks (cursor endDay : Int) : List (Int × Int) :=
  if cursor ≤ endDay then
    (cursor, min (cursor + 94) endDay) :: history_chunks (min (cursor + 94) endDay + 1) endDay
  else []
termination_by (endDay + 1 - cursor).toNat
decreasing_by
  simp_all
  omega

/-- sync_history_window, sync.py lines 441-485: the window runs from
today minus days_back to today plus days_forward, split by the cursor
loop. -/
def sync_history_window_chunks (today : Int) (days_back days_forward : Nat) : List (Int × Int) :=
  history_chunks (today - days_back) (today + days_forward)

/- ----------------------------------------------------------------------
Availability: compute_availability, aggregate.py lines 419-464. The
per-player query yields the most recent appearances limited to
sample_size; each appearance carries its is_starting flag. The row built
for the player is modelled by its likely_starter and confidence fields
(the reason string repeats starts and sample_size).
---------------------------------------------------------------------- -/

/-- The availability verdict for one player. -/
structure AvailabilityEntry where
  likely_starter : Bool
  confidence : Rat
deriving DecidableEq, Repr

/-- The body of the player loop of aggregate.py lines 426-461:
appearances is the is_starting flag of each recorded appearance, newest
first; the query limit keeps at most sample_size of them; None when the
player has no rows. Both the starter test and the confidence divide by
the requested sample_size, not by the number of appearances. -/
def compute_availability_entry (appearances : List Bool) (sample_size : Nat) : Option AvailabilityEntry :=
  let rows := appearances.take sample_size
  if rows.isEmpty then none
  else
    let starts : Nat := rows.countP id
    some { likely_starter := decide ((starts : Rat) / sample_size ≥ 1 / 2)
           confidence := (starts : Rat) / sample_size }

/- ----------------------------------------------------------------------
Theorems.
---------------------------------------------------------------------- -/

/-- Peel one entry off firstParticipantGoals. -/
theorem firstParticipantGoals_cons (who : String) (s : ScoreEntry) (rest : List ScoreEntry) :
    firstParticipantGoals who (s :: rest) =
      (let score_obj := s.score.getD ⟨none, none⟩
       if score_obj.participant == some who then
         match score_obj.goals with
         | some g => some g
         | none => firstParticipantGoals who rest
       else firstParticipantGoals who rest) := by
  simp only [firstParticipantGoals, List.filterMap_cons]
  by_cases hp : (s.score.getD ⟨none, none⟩).participant == some who
  · simp only [hp, if_true]
    cases hg : (s.score.getD ⟨none, none⟩).goals <;> simp
  · simp [hp]

/-- The score loop keeps an already-assigned value and otherwise takes the
first non-null goals for each side; characterisation of the loop of
sync.py lines 152-159 for any starting accumulators. -/
theorem scoresLoop_characterization (entries : List ScoreEntry) :
    ∀ home_score away_score : Option Int,
      scoresLoop entries home_score away_score =
        ((if home_score.isNone then firstParticipantGoals "home" entries else home_score),
         (if away_score.isNone then firstParticipantGoals "away" entries else away_score)) := by
  induction entries with
  | nil =>
    intro h a
    cases h <;> cases a <;> simp [scoresLoop, firstParticipantGoals]
  | cons s rest ih =>
    intro h a
    rw [scoresLoop, ih, firstParticipantGoals_cons, firstParticipantGoals_cons]
    by_cases hp : (s.score.getD ⟨none, none⟩).participant == some "home" <;>
      by_cases ha : (s.score.getD ⟨none, none⟩).participant == some "away" <;>
        cases h <;> cases a <;>
          cases hg : (s.score.getD ⟨none, none⟩).goals <;>
            simp_all

/-- C1 counterexample: a raw fixture whose scores array lists the stale
1ST_HALF snapshots (home 1, away 0) before the CURRENT snapshots (home 2,
away 0) is mapped to home_score 1, not to the CURRENT value 2: the mapper
never reads the tag, so the claimed preference for the CURRENT entry
fails. -/
theorem fixture_scores_current_not_preferred :
    fixture_mapper_scores (.listScores
      [⟨some "1ST_HALF", some ⟨some "home", some 1⟩⟩,
       ⟨some "1ST_HALF", some ⟨some "away", some 0⟩⟩,
       ⟨some "CURRENT", some ⟨some "home", some 2⟩⟩,
       ⟨some "CURRENT", some ⟨some "away", some 0⟩⟩]) = (some 1, some 0)
    ∧ ((some 1, some 0) : Option Int × Option Int) ≠ (some 2, some 0) := by
  exact ⟨by decide, by decide⟩

/-- C1 amended: for a list-shaped scores array the fixture mapper sets
home_score and away_score to the first non-null home and away goals in
array order, ignoring the CURRENT or period tag entirely; in particular a
record whose CURRENT entries (home 2, away 0) precede the stale 1ST_HALF
entries maps to home_score 2 and away_score 0, and a score of zero is a
valid value that is assigned and never overwritten. -/
theorem fixture_scores_first_seen :
    (∀ entries : List ScoreEntry,
      fixture_mapper_scores (.listScores entries) =
        (firstParticipantGoals "home" entries, firstParticipantGoals "away" entries))
    ∧ fixture_mapper_scores (.listScores
        [⟨some "CURRENT", some ⟨some "home", some 2⟩⟩,
         ⟨some "CURRENT", some ⟨some "away", some 0⟩⟩,
         ⟨some "1ST_HALF", some ⟨some "home", some 1⟩⟩,
         ⟨some "1ST_HALF", some ⟨some "away", some 0⟩⟩]) = (some 2, some 0) := by
  constructor
  · intro entries
    simpa [fixture_mapper_scores] using scoresLoop_characterization entries none none
  · decide

/-- C2 counterexample: with min_samples 5 and only three qualifying
values, the rate_over of player_one_shot_value_bets.py does not return
None: it clamps the required count to the sample and computes the
hit-rate over the three values. -/
theorem player_rate_over_small_sample :
    (([some 3, some 1, some 4] : List (Option Rat)).filterMap id).length = 3
    ∧ (3 : Nat) < 5
    ∧ PlayerOneShot.rate_over [some 3, some 1, some 4] (5 / 2) 5
        = some { pct := 2 / 3, total := 3, avg := 8 / 3, seq := [3, 1, 4] } := by
  refine ⟨by decide, by decide, ?_⟩
  simp only [PlayerOneShot.rate_over, List.filterMap_cons, List.filterMap_nil, id]
  norm_num [List.countP_cons, List.countP_nil, pyIntTrunc]

/-- C2 amended: the rate_over of team_value_bets.py returns None whenever
the candidate window holds fewer than min_samples qualifying (non-null)
values; the rate_over of player_one_shot_value_bets.py clamps its floor
to the number of qualifying values and therefore always returns a result,
however small the window. -/
theorem rate_over_min_sample_gate :
    (∀ (values : List (Option Rat)) (line : Rat) (min_samples : Nat),
        (values.filterMap id).length < min_samples →
        TeamValueBets.rate_over values line min_samples = none)
    ∧ (∀ (vals : List (Option Rat)) (line : Rat) (min_samples : Nat),
        (PlayerOneShot.rate_over vals line min_samples).isSome) := by
  constructor
  · intro values line ms h
    simp only [TeamValueBets.rate_over, if_pos h]
  · intro vals line ms
    have hmin := Nat.min_le_right (if ms > 0 then ms else 1) (vals.filterMap id).length
    simp only [PlayerOneShot.rate_over]
    rw [if_neg (by omega)]
    simp

/-- C2 amended witness: a window of two qualifying values out of three
entries, gated at five, is rejected by the team rate_over, while the
player one still answers even on an empty window. -/
theorem rate_over_min_sample_gate_witness :
    TeamValueBets.rate_over [some 3, none, some 1] 1 5 = none
    ∧ (PlayerOneShot.rate_over ([] : List (Option Rat)) 1 5).isSome := by
  exact ⟨rate_over_min_sample_gate.1 [some 3, none, some 1] 1 5 (by decide),
    rate_over_min_sample_gate.2 [] 1 5⟩

/-- C8: both best-of-sample-size selectors test the given sample sizes in
order and replace the current best only on a strictly greater hit-rate,
so for two candidate sizes whose rates tie, the result of the first
(smaller) size is returned. -/
theorem selector_tie_keeps_first_sample :
    (∀ (vals : List (Option Rat)) (a b : Nat) (line : Rat) (min_samples : Nat)
        (ra rb : RateResult),
      TeamValueBets.rate_over (vals.take a) line min_samples = some ra →
      TeamValueBets.rate_over (vals.take b) line min_samples = some rb →
      rb.pct ≤ ra.pct →
      TeamValueBets.select_best_rate vals [a, b] line min_samples = some (a, ra))
    ∧ (∀ (vals : List (Option Rat)) (a b : Nat) (line : Rat) (min_samples : Nat)
        (ra rb : RateResult),
      PlayerOneShot.rate_over (vals.take a) line min_samples = some ra →
      PlayerOneShot.rate_over (vals.take b) line min_samples = some rb →
      rb.pct ≤ ra.pct →
      PlayerOneShot.best_rate vals [a, b] line min_samples = some (a, ra)) := by
  constructor
  · intro vals a b line ms ra rb h1 h2 h3
    simp [TeamValueBets.select_best_rate, h1, h2, not_lt_of_le h3]
  · intro vals a b line ms ra rb h1 h2 h3
    simp [PlayerOneShot.best_rate, h1, h2, not_lt_of_le h3]

/-- C8 witness: with the shots sequence 3,4,5,1,0,3,6,5,0,1, line 2.5 and
floor 5, sample sizes 5 and 10 both hit at rate 3/5; both selectors
return the size-5 result. -/
theorem selector_tie_keeps_first_sample_witness :
    TeamValueBets.select_best_rate
        [some 3, some 4, some 5, some 1, some 0, some 3, some 6, some 5, some 0, some 1]
        [5, 10] (5 / 2) 5
      = some (5, { pct := 3 / 5, total := 5, avg := 13 / 5, seq := [3, 4, 5, 1, 0] })
    ∧ PlayerOneShot.best_rate
        [some 3, some 4, some 5, some 1, some 0, some 3, some 6, some 5, some 0, some 1]
        [5, 10] (5 / 2) 5
      = some (5, { pct := 3 / 5, total := 5, avg := 13 / 5, seq := [3, 4, 5, 1, 0] }) := by
  constructor
  · refine selector_tie_keeps_first_sample.1 _ 5 10 _ 5 _
      { pct := 3 / 5, total := 10, avg := 14 / 5, seq := [3, 4, 5, 1, 0, 3, 6, 5, 0, 1] } ?_ ?_ ?_
    · simp only [TeamValueBets.rate_over, TeamValueBets.truncate_seq, List.take,
        List.filterMap_cons, List.filterMap_nil, id]
      norm_num [List.countP_cons, List.countP_nil, pyIntTrunc]
    · simp only [TeamValueBets.rate_over, TeamValueBets.truncate_seq, List.take,
        List.filterMap_cons, List.filterMap_nil, id]
      norm_num [List.countP_cons, List.countP_nil, pyIntTrunc]
    · norm_num
  · refine selector_tie_keeps_first_sample.2 _ 5 10 _ 5 _
      { pct := 3 / 5, total := 10, avg := 14 / 5, seq := [3, 4, 5, 1, 0, 3, 6, 5, 0, 1] } ?_ ?_ ?_
    · simp only [PlayerOneShot.rate_over, List.take,
        List.filterMap_cons, List.filterMap_nil, id]
      norm_num [List.countP_cons, List.countP_nil, pyIntTrunc]
    · simp only [PlayerOneShot.rate_over, List.take,
        List.filterMap_cons, List.filterMap_nil, id]
      norm_num [List.countP_cons, List.countP_nil, pyIntTrunc]
    · norm_num

/- ----------------------------------------------------------------------
Mocked 3-page collection with page sizes 50, 50 and 20, in the three
pagination-signal styles of the spec, used against both walkers.
---------------------------------------------------------------------- -/

/-- The 120 records of the mocked collection, in original order. -/
def mock_records : List Nat := List.range 120

/-- Data arrays of the three mocked pages: 50, 50 and 20 records. -/
def mock_page_data (p : Int) : List Nat :=
  if p == 1 then mock_records.take 50
  else if p == 2 then (mock_records.drop 50).take 50
  else if p == 3 then mock_records.drop 100
  else []

/-- The mock in next_page URL style: each page carries only a full URL
whose page query parameter names the next page. -/
def mock_server_url (p : Int) : Page Nat :=
  { data := mock_page_data p
    pagination := some { next_page :=
      if p == 1 then some (.str "https://api.example.com/football/fixtures?page=2")
      else if p == 2 then some (.str "https://api.example.com/football/fixtures?page=3")
      else none } }

/-- The mock in has_more style: a boolean flag plus the current page. -/
def mock_server_has_more (p : Int) : Page Nat :=
  { data := mock_page_data p
    pagination := some { has_more := some (p == 1 || p == 2), current_page := some p } }

/-- The mock in current_page and total_pages style. -/
def mock_server_total (p : Int) : Page Nat :=
  { data := mock_page_data p
    pagination := some { current_page := some p, total_pages := some 3 } }

/-- C3 counterexample: on the next_page URL style mock, the walker of
sportmonks_client.py stops after the first page, yielding 50 records
instead of the claimed 120: its int conversion of the URL fails and no
other signal is present. -/
theorem sm_walker_url_style_stops_early :
    sm_fetch_collection mock_server_url 50 10 1 = List.range 50
    ∧ List.range 50 ≠ mock_records := by
  exact ⟨by decide, by decide⟩

/-- C3 amended: the walker of api.py yields exactly the 120 records in
original order under all three pagination-signal styles; the walker of
sportmonks_client.py does so under the has_more and total_pages styles,
but under the next_page URL style it yields only the 50 records of the
first page. -/
theorem pagination_walkers_three_styles :
    api_fetch_collection mock_server_url 5 1 = mock_records
    ∧ api_fetch_collection mock_server_has_more 5 1 = mock_records
    ∧ api_fetch_collection mock_server_total 5 1 = mock_records
    ∧ sm_fetch_collection mock_server_has_more 50 5 1 = mock_records
    ∧ sm_fetch_collection mock_server_total 50 5 1 = mock_records
    ∧ sm_fetch_collection mock_server_url 50 5 1 = List.range 50 := by
  refine ⟨by decide, by decide, by decide, by decide, by decide, by decide⟩

/-- A server whose first page is empty but signals has_more, and whose
second page holds one record. -/
def empty_first_page_server (p : Int) : Page Nat :=
  if p == 1 then { data := [], pagination := some { has_more := some true } }
  else if p == 2 then { data := [7] }
  else { data := [] }

/-- C4 counterexample: the walker of api.py does not stop on a page with
zero records: with has_more still set it requests the next page and
yields its record, where the claim requires it to have stopped with an
empty yield. -/
theorem api_walker_continues_past_empty_page :
    api_fetch_collection empty_first_page_server 5 1 = [7]
    ∧ ([7] : List Nat) ≠ [] := by
  exact ⟨by decide, by decide⟩

/-- Pagination metadata built positionally: has_more, next_page,
current_page, total_pages, page_field. -/
def mkPagination (hm : Option Bool) (np : Option NextPage) (cur tot pf : Option Int) : Pagination :=
  { has_more := hm, next_page := np, current_page := cur, total_pages := tot, page_field := pf }

/-- C4 amended: the api.py walker decides the next page by, in priority
order, a truthy next_page token (integer directly, URL via its page query
parameter), then has_more compared with True, then current_page below
total_pages with both truthy, stopping only when none of these apply:
a zero-record page alone does not stop it. The sportmonks_client.py
walker stops on a zero-record page, treats a URL-shaped next_page as
absent (it never parses the query string), and follows an
integer-convertible next_page only when it exceeds the current page. -/
theorem pagination_next_page_decision :
    (∀ (hm : Option Bool) (cur tot pf : Option Int) (page n : Int), n ≠ 0 →
      api_next_page (some (mkPagination hm (some (.int n)) cur tot pf)) page = some n)
    ∧ (∀ (hm : Option Bool) (cur tot pf : Option Int) (page : Int),
      api_next_page
        (some (mkPagination hm (some (.str "https://api.example.com/fixtures?page=7")) cur tot pf))
        page = some 7)
    ∧ (∀ (cur tot pf : Option Int) (page : Int),
      api_next_page (some (mkPagination (some true) none cur tot pf)) page
        = some (pyOrZD cur page + 1))
    ∧ (∀ (hm : Option Bool) (c t : Int) (pf : Option Int) (page : Int),
      hm ≠ some true → c ≠ 0 → t ≠ 0 → c < t →
      api_next_page (some (mkPagination hm none (some c) (some t) pf)) page = some (c + 1))
    ∧ (∀ page : Int, api_next_page none page = none)
    ∧ (∀ (server : Int → Page Nat) (per_page fuel : Nat) (page : Int),
      (server page).data = [] →
      sm_fetch_collection server per_page (fuel + 1) page = [])
    ∧ (∀ (hm : Option Bool) (cur tot pf : Option Int) (page : Int) (s : String),
      pyIntOfString s = none →
      sm_next_page (mkPagination hm (some (.str s)) cur tot pf) page
        = sm_next_page (mkPagination hm none cur tot pf) page)
    ∧ (∀ (hm : Option Bool) (cur tot pf : Option Int) (page n : Int),
      n ≠ 0 → pyOrZD cur (pyOrZD pf page) < n →
      sm_next_page (mkPagination hm (some (.int n)) cur tot pf) page = some n) := by
  refine ⟨?_, ?_, ?_, ?_, ?_, ?_, ?_, ?_⟩
  · intro hm cur tot pf page n hn
    simp [api_next_page, mkPagination, hn]
  · intro hm cur tot pf page
    have hq : queryPageParam ("https://api.example.com/fixtures?page=7".toList) = some ['7'] := by
      decide
    have hd : isDigits ['7'] = true := by decide
    have hv : (digitsToNat ['7'] : Int) = 7 := by decide
    simp at hq
    simp [api_next_page, mkPagination, hq, hd, hv]
  · intro cur tot pf page
    simp [api_next_page, mkPagination]
  · intro hm c t pf page hhm hc ht hlt
    have hb : (hm == some true) = false := by
      cases hm with
      | none => rfl
      | some b => cases b <;> simp_all
    simp [api_next_page, mkPagination, hb, pyTruthyZ, hc, ht, hlt]
  · intro page
    simp [api_next_page]
  · intro server per_page fuel page h
    simp [sm_fetch_collection, h]
  · intro hm cur tot pf page s hs
    simp [sm_next_page, mkPagination, hs]
  · intro hm cur tot pf page n hn hlt
    simp [sm_next_page, mkPagination, pyTruthyZ, hn]
    omega

/-- C4 amended witness: each branch of the next-page decision evaluated
at a concrete input. -/
theorem pagination_next_page_decision_witness :
    api_next_page (some (mkPagination (some false) (some (.int 9)) none none none)) 1 = some 9
    ∧ api_next_page
        (some (mkPagination none (some (.str "https://api.example.com/fixtures?page=7")) none none none))
        1 = some 7
    ∧ api_next_page (some (mkPagination (some true) none (some 2) none none)) 2
        = some (pyOrZD (some 2) 2 + 1)
    ∧ api_next_page (some (mkPagination (some false) none (some 2) (some 3) none)) 1 = some (2 + 1)
    ∧ api_next_page none 4 = none
    ∧ sm_fetch_collection (fun _ => ({ data := [] } : Page Nat)) 50 3 1 = []
    ∧ sm_next_page (mkPagination none (some (.str "https://x?page=2")) (some 1) (some 3) none) 1
        = sm_next_page (mkPagination none none (some 1) (some 3) none) 1
    ∧ sm_next_page (mkPagination none (some (.int 2)) (some 1) none none) 1 = some 2 := by
  refine ⟨pagination_next_page_decision.1 (some false) none none none 1 9 (by decide),
    pagination_next_page_decision.2.1 none none none none 1,
    pagination_next_page_decision.2.2.1 (some 2) none none 2,
    pagination_next_page_decision.2.2.2.1 (some false) 2 3 none 1
      (by decide) (by decide) (by decide) (by decide),
    pagination_next_page_decision.2.2.2.2.1 4,
    pagination_next_page_decision.2.2.2.2.2.1 (fun _ => ({ data := [] } : Page Nat)) 50 2 1 rfl,
    pagination_next_page_decision.2.2.2.2.2.2.1 none (some 1) (some 3) none 1
      "https://x?page=2" (by decide),
    pagination_next_page_decision.2.2.2.2.2.2.2 none (some 1) none none 1 2
      (by decide) (by decide)⟩

/-- On an unbroken run of network errors the backoff doubles without any
cap: the sleeps starting from backoff b are b, 2b, 4b and so on until the
retry budget is exhausted. -/
theorem request_go_net (mr : Nat) : ∀ (n a : Nat) (b : Rat), mr - a = n →
    request_go (fun _ => .netError) mr a b
      = (.error .afterRetries, (List.range (mr - a - 1)).map fun k => b * 2 ^ k) := by
  intro n
  induction n using Nat.strong_induction_on with
  | _ n ih =>
    intro a b hn
    rw [request_go]
    by_cases hcase : mr ≤ a + 1
    · have h0 : mr - a - 1 = 0 := by omega
      simp [hcase, h0]
    · rw [if_neg hcase]
      rw [ih (mr - (a + 1)) (by omega) (a + 1) (b * 2) rfl]
      have h1 : mr - a - 1 = (mr - (a + 1) - 1) + 1 := by omega
      rw [h1, List.range_succ_eq_map]
      simp only [List.map_cons, List.map_map, pow_zero, mul_one]
      have hfun : (fun k => b * 2 * 2 ^ k) = ((fun k => b * 2 ^ k) ∘ Nat.succ) := by
        funext k
        simp only [Function.comp_apply, pow_succ]
        ring
      rw [hfun]

/-- Doubling under the 16-second cap commutes with starting one step
later: helper for the capped backoff shape. -/
theorem min_double_collapse (b : Rat) (hb : 0 < b) (k : Nat) :
    min (min (b * 2) 16 * 2 ^ k) 16 = min (b * 2 ^ (k + 1)) 16 := by
  rcases le_total (b * 2) 16 with h2 | h2
  · rw [min_eq_left h2]
    congr 1
    rw [pow_succ]
    ring
  · have h2k : (1 : Rat) ≤ 2 ^ k := one_le_pow₀ (by norm_num)
    rw [min_eq_right h2]
    have h16 : (16 : Rat) ≤ 16 * 2 ^ k := le_mul_of_one_le_right (by norm_num) h2k
    rw [min_eq_right h16]
    have hbig : (16 : Rat) ≤ b * 2 ^ (k + 1) := by
      have hpk : (0 : Rat) < 2 ^ k := by positivity
      rw [pow_succ]
      nlinarith
    rw [min_eq_right hbig]

/-- On an unbroken run of retryable HTTP statuses (429 or 5xx) the sleeps
starting from backoff b are min(b 2^k, 16) for the k-th retry, and the
run ends in a SportMonksError carrying a status and body. -/
theorem request_go_retryable (attempts : Nat → Attempt)
    (h : ∀ k, ∃ s bd j, attempts k = .resp s bd j ∧ retryableStatus s = true) (mr : Nat) :
    ∀ (n a : Nat) (b : Rat), mr - a = n → 0 < b → b ≤ 16 →
      (request_go attempts mr a b).2
          = (List.range (mr - a - 1)).map (fun k => min (b * 2 ^ k) 16)
        ∧ ∃ s bd, (request_go attempts mr a b).1 = .error (.failedStatus s bd) := by
  intro n
  induction n using Nat.strong_induction_on with
  | _ n ih =>
    intro a b hn hb hb16
    obtain ⟨s, bd, j, hk, hret⟩ := h a
    have hs200 : (s == 200) = false := by
      simp only [retryableStatus, Bool.or_eq_true, beq_iff_eq, Bool.and_eq_true,
        decide_eq_true_eq] at hret
      simp only [beq_eq_false_iff_ne, ne_eq]
      omega
    rw [request_go]
    simp only [Nat.add_sub_cancel, hk, hs200, hret, Bool.false_eq_true, if_false, if_true]
    by_cases hcase : mr ≤ a + 1
    · have h0 : mr - a - 1 = 0 := by omega
      simp [hcase, h0]
    · rw [if_neg hcase]
      obtain ⟨ih1, ih2⟩ := ih (mr - (a + 1)) (by omega) (a + 1) (min (b * 2) 16) rfl
        (lt_min (by linarith) (by norm_num)) (min_le_right _ _)
      refine ⟨?_, ih2⟩
      simp only [ih1]
      have h1 : mr - a - 1 = (mr - (a + 1) - 1) + 1 := by omega
      rw [h1, List.range_succ_eq_map]
      simp only [List.map_cons, List.map_map, pow_zero, mul_one, min_eq_left hb16]
      have hfun : (fun k => min (min (b * 2) 16 * 2 ^ k) 16)
          = ((fun k => min (b * 2 ^ k) 16) ∘ Nat.succ) := by
        funext k
        simp only [Function.comp_apply]
        exact min_double_collapse b hb k
      rw [hfun]

/-- C5 counterexample: with max_retries 7 and every attempt failing with
a network error, the sixth sleep of the sportmonks_client.py request loop
is 32 seconds, above the claimed 16-second cap: the network-error branch
doubles the backoff without capping it. -/
theorem backoff_uncapped_on_network_errors :
    (sm_request (fun _ => .netError) 7).2 = [1, 2, 4, 8, 16, 32]
    ∧ ((16 : Rat) < 32) := by
  constructor
  · rw [sm_request, request_go_net 7 7 0 1 rfl]
    norm_num [List.range_succ]
  · norm_num

/-- C5 amended: in sportmonks_client.py, HTTP 429 and 5xx failures are
retried with backoff sleeps min(2^k, 16) seconds, starting at one second,
doubling and capped at 16, up to max_retries, and exhaustion raises a
SportMonksError carrying status and body (network-error retries instead
double without a cap); a non-retryable non-200 status raises immediately
with status and body and no sleeps; and the api.py client never retries:
any status of 400 or above, including 429 and 5xx, raises immediately. -/
theorem retry_backoff_and_failure :
    (∀ (attempts : Nat → Attempt) (mr : Nat),
      (∀ k, ∃ s bd j, attempts k = .resp s bd j ∧ retryableStatus s = true) →
      (sm_request attempts mr).2 = (List.range (mr - 1)).map (fun k => min ((2 : Rat) ^ k) 16)
      ∧ ∃ s bd, (sm_request attempts mr).1 = .error (.failedStatus s bd))
    ∧ (∀ (attempts : Nat → Attempt) (mr s : Nat) (bd : String) (j : Bool),
      attempts 0 = .resp s bd j → (s == 200) = false → retryableStatus s = false →
      sm_request attempts mr = (.error (.failedStatus s bd), []))
    ∧ (∀ (s : Nat) (bd : String) (j : Bool), 400 ≤ s →
      api_request s bd j = .error (.failedStatus s bd)) := by
  refine ⟨?_, ?_, ?_⟩
  · intro attempts mr h
    obtain ⟨h1, h2⟩ := request_go_retryable attempts h mr mr 0 1 rfl (by norm_num) (by norm_num)
    refine ⟨?_, h2⟩
    rw [sm_request, h1]
    have hfun : (fun k => min ((1 : Rat) * 2 ^ k) 16) = (fun k => min ((2 : Rat) ^ k) 16) := by
      funext k
      rw [one_mul]
    rw [Nat.sub_zero, hfun]
  · intro attempts mr s bd j h0 hs200 hret
    rw [sm_request, request_go]
    simp only [Nat.add_sub_cancel, h0, hs200, hret, Bool.false_eq_true, if_false]
  · intro s bd j hs
    have : ¬ s < 400 := by omega
    simp [api_request, this]

/-- C5 amended witness: three 503 responses with max_retries 3 sleep 1
then 2 seconds before failing; a 404 fails at once with its body and no
sleeps; the api.py client raises on a 429 without retrying. -/
theorem retry_backoff_and_failure_witness :
    (sm_request (fun _ => .resp 503 "bad gateway" true) 3).2
        = (List.range (3 - 1)).map (fun k => min ((2 : Rat) ^ k) 16)
    ∧ sm_request (fun _ => .resp 404 "not found" true) 5
        = (.error (.failedStatus 404 "not found"), [])
    ∧ api_request 429 "limited" true = .error (.failedStatus 429 "limited") := by
  refine ⟨(retry_backoff_and_failure.1 (fun _ => .resp 503 "bad gateway" true) 3
      (fun _ => ⟨503, "bad gateway", true, rfl, by decide⟩)).1,
    retry_backoff_and_failure.2.1 (fun _ => .resp 404 "not found" true) 5 404 "not found" true
      rfl (by decide) (by decide),
    retry_backoff_and_failure.2.2 429 "limited" true (by norm_num)⟩

/-- C6: between any two consecutive calls made through the client, at
least 3600 divided by requests_per_hour seconds elapse, whatever the two
endpoint paths are: the single shared limiter blocks the second call
until the minimum interval since the first call time has passed
(idealised clock: sleeps are exact and time is monotone). -/
theorem rate_limiter_global_min_interval (rph : Rat) (rl : RateLimiter)
    (path1 path2 : String) (now1 now2 : Rat)
    (hpos : 0 < rph) (hmi : rl.min_interval = 3600 / rph) :
    3600 / rph ≤
      (client_request_throttle (client_request_throttle rl path1 now1).2 path2 now2).1
        - (client_request_throttle rl path1 now1).1 := by
  have hmipos : 0 < (3600 : Rat) / rph := by positivity
  simp only [client_request_throttle, RateLimiter.wait, hmi]
  split_ifs with h1 h2 h3 <;> linarith

/-- C6 witness: at 3600 requests per hour, two back-to-back calls issued
at clock zero through different endpoints end up at least one second
apart. -/
theorem rate_limiter_global_min_interval_witness :
    (3600 : Rat) / 3600 ≤
      (client_request_throttle
        (client_request_throttle (RateLimiter.mk_hourly 3600) "fixtures" 0).2 "odds" 0).1
        - (client_request_throttle (RateLimiter.mk_hourly 3600) "fixtures" 0).1 :=
  rate_limiter_global_min_interval 3600 (RateLimiter.mk_hourly 3600) "fixtures" "odds" 0 0
    (by norm_num) rfl

/-- An odds payload with no provider outcome id whose name and
participant keys carry different values. -/
def dup_odds_row : RawOdds :=
  { bookmaker_id := some 1
    market_id := some 2
    label := some "Over"
    name := some "Over 2.5"
    participant := some "Home" }

/-- C7: re-ingesting the identical odds payload (identical raw hash) for
the same fixture inserts a second row instead of skipping or updating:
the natural-key lookup reads the participant component as name before
participant while the stored field was written as participant before
name, so the lookup misses the row that the first ingestion stored. -/
theorem odds_reingest_inserts_duplicate :
    (store_odds_rows 10 [] [dup_odds_row]).length = 1
    ∧ (store_odds_rows 10 (store_odds_rows 10 [] [dup_odds_row]) [dup_odds_row]).length = 2
    ∧ (store_odds_rows 10 [] [dup_odds_row]).map (fun o => o.raw_hash)
        = [dict_hash dup_odds_row] := by
  refine ⟨by decide, by decide, by decide⟩

/-- C9 counterexample: a 182-day window starting at day 0 is chunked as
the old-to-new pair (0, 94) then (95, 181): the first sub-window issued
is the oldest one, not the newest, contradicting the claimed
newest-first order of historical backfill. -/
theorem history_chunks_not_newest_first :
    history_chunks 0 181 = [(0, 94), (95, 181)]
    ∧ (history_chunks 0 181).head? ≠ some (95, 181) := by
  have h : history_chunks 0 181 = [(0, 94), (95, 181)] := by
    rw [history_chunks]
    norm_num
    rw [history_chunks]
    norm_num
    rw [history_chunks]
    norm_num
  refine ⟨h, by rw [h]; decide⟩

/-- Invariants of the chunk loop, by strong induction on the remaining
span: the first chunk starts at the window start, every chunk lies inside
the window and spans at most 95 days, consecutive chunks are adjacent,
and some chunk reaches the window end. -/
theorem history_chunks_properties : ∀ (n : Nat) (s e : Int), (e + 1 - s).toNat = n → s ≤ e →
    (history_chunks s e).head? = some (s, min (s + 94) e)
    ∧ (∀ c ∈ history_chunks s e, s ≤ c.1 ∧ c.1 ≤ c.2 ∧ c.2 ≤ e ∧ c.2 - c.1 ≤ 94)
    ∧ List.Chain' (fun c d => d.1 = c.2 + 1) (history_chunks s e)
    ∧ ∃ c ∈ history_chunks s e, c.2 = e := by
  intro n
  induction n using Nat.strong_induction_on with
  | _ n ih =>
    intro s e hn hse
    by_cases hend : e ≤ s + 94
    · have hmin : min (s + 94) e = e := min_eq_right (by omega)
      rw [history_chunks, if_pos hse, hmin, history_chunks, if_neg (by omega)]
      refine ⟨by simp, ?_, ?_, ?_⟩
      · intro c hc
        simp only [List.mem_singleton] at hc
        subst hc
        refine ⟨le_refl s, hse, le_refl e, by omega⟩
      · simp
      · exact ⟨(s, e), by simp⟩
    · have hmin : min (s + 94) e = s + 94 := min_eq_left (by omega)
      have h95 : s + 94 + 1 = s + 95 := by ring
      have hlt : (e + 1 - (s + 95)).toNat < n := by omega
      have hse2 : s + 95 ≤ e := by omega
      obtain ⟨ihh, ihmem, ihchain, ihcov⟩ :=
        ih ((e + 1 - (s + 95)).toNat) hlt (s + 95) e rfl hse2
      rw [history_chunks, if_pos hse, hmin, h95]
      refine ⟨by simp, ?_, ?_, ?_⟩
      · intro c hc
        rcases List.mem_cons.mp hc with hc | hc
        · subst hc
          refine ⟨le_refl s, by omega, by omega, by omega⟩
        · obtain ⟨h1, h2, h3, h4⟩ := ihmem c hc
          exact ⟨by omega, h2, h3, h4⟩
      · rw [List.chain'_cons']
        refine ⟨?_, ihchain⟩
        intro b hb
        rw [ihh] at hb
        simp only [Option.mem_def, Option.some.injEq] at hb
        subst hb
        simp
        omega
      · obtain ⟨c, hc, hce⟩ := ihcov
        exact ⟨c, List.mem_cons_of_mem _ hc, hce⟩

/-- C9 amended: the orchestrator splits a requested window into
sequential sub-windows of at most 95 days (within the 100-day provider
cap), adjacent and covering the window up to its end, and processes them
oldest-first: the first chunk issued starts at the window start. -/
theorem sync_history_chunks_oldest_first (s e : Int) (hse : s ≤ e) :
    (history_chunks s e).head? = some (s, min (s + 94) e)
    ∧ (∀ c ∈ history_chunks s e, s ≤ c.1 ∧ c.1 ≤ c.2 ∧ c.2 ≤ e ∧ c.2 - c.1 ≤ 94)
    ∧ List.Chain' (fun c d => d.1 = c.2 + 1) (history_chunks s e)
    ∧ ∃ c ∈ history_chunks s e, c.2 = e :=
  history_chunks_properties ((e + 1 - s).toNat) s e rfl hse

/-- C9 amended witness: the 182-day window of the counterexample
instantiates the chunk invariants. -/
theorem sync_history_chunks_oldest_first_witness :
    (history_chunks 0 181).head? = some (0, min (0 + 94) 181)
    ∧ (∀ c ∈ history_chunks 0 181, 0 ≤ c.1 ∧ c.1 ≤ c.2 ∧ c.2 ≤ 181 ∧ c.2 - c.1 ≤ 94)
    ∧ List.Chain' (fun c d => d.1 = c.2 + 1) (history_chunks 0 181)
    ∧ ∃ c ∈ history_chunks 0 181, c.2 = 181 :=
  sync_history_chunks_oldest_first 0 181 (by norm_num)

/-- C10: whenever compute_availability produces an entry for a player,
the confidence divides the start count by the requested sample_size (not
by the number of recorded appearances) and likely_starter holds exactly
when starts over sample_size reaches one half; a player with a single
recorded appearance in which they started gets confidence one half and
likely_starter true at sample_size 2. -/
theorem availability_uses_requested_sample_size :
    (∀ (appearances : List Bool) (sample_size : Nat) (entry : AvailabilityEntry),
      compute_availability_entry appearances sample_size = some entry →
      entry.confidence = ((appearances.take sample_size).countP id : Rat) / sample_size
      ∧ (entry.likely_starter = true ↔ sample_size ≤ 2 * (appearances.take sample_size).countP id))
    ∧ compute_availability_entry [true] 2
        = some { likely_starter := true, confidence := 1 / 2 } := by
  constructor
  · intro apps ss entry h
    rw [compute_availability_entry] at h
    by_cases hrows : (apps.take ss).isEmpty
    · rw [if_pos hrows] at h
      exact absurd h (by simp)
    · rw [if_neg hrows] at h
      have hss : ss ≠ 0 := by
        intro h0
        subst h0
        simp [List.take] at hrows
      have hpos : (0 : Rat) < ss := by
        have := Nat.pos_of_ne_zero hss
        exact_mod_cast this
      simp only [Option.some.injEq] at h
      subst h
      refine ⟨rfl, ?_⟩
      simp only [decide_eq_true_eq, ge_iff_le]
      rw [div_le_div_iff₀ (by norm_num) hpos]
      constructor
      · intro hle
        have : (ss : Rat) ≤ 2 * (apps.take ss).countP id := by linarith
        exact_mod_cast this
      · intro hle
        have : (ss : Rat) ≤ 2 * (apps.take ss).countP id := by exact_mod_cast hle
        linarith
  · simp only [compute_availability_entry, List.take, List.isEmpty_cons, Bool.false_eq_true,
      if_false, List.countP_cons, List.countP_nil, id, Option.some.injEq,
      AvailabilityEntry.mk.injEq]
    norm_num

/-- C10 witness: the single-appearance starter at sample_size 2, with
confidence one half and likely_starter true. -/
theorem availability_uses_requested_sample_size_witness :
    ({ likely_starter := true, confidence := 1 / 2 } : AvailabilityEntry).confidence
        = ((([true] : List Bool).take 2).countP id : Rat) / 2
    ∧ (({ likely_starter := true, confidence := 1 / 2 } : AvailabilityEntry).likely_starter = true
        ↔ 2 ≤ 2 * (([true] : List Bool).take 2).countP id) :=
  availability_uses_requested_sample_size.1 [true] 2 _ availability_uses_requested_sample_size.2
